import Mathlib

/-!
Verification development for the PolyADCIRC run framework
(`polysim/run_framework/subdomain.py`, `polyadcirc/run_framework/fulldomain.py`).

The comparator functions operate on numpy arrays of integers (1-, 2- or
3-dimensional), dictionaries keyed by output-file names, and a
subdomain-to-fulldomain node map.  Arrays are modelled as nested lists of
integers; numpy fancy row indexing, slice truncation, elementwise
subtraction with per-axis length-1 broadcasting, last-axis indexing and
pairwise stacking are modelled explicitly.  Fallible numpy operations
(out-of-range index, non-broadcastable shapes) return `Option`, modelling
the uncaught Python exception.
-/

/-- A numpy integer array of rank 1, 2 or 3, as used by the comparison
routines (rank-4 arrays are never produced by the code under study). -/
inductive NpArr where
  | d1 (a : List Int)
  | d2 (a : List (List Int))
  | d3 (a : List (List (List Int)))
deriving DecidableEq

/-- Number of entries along axis 0 (`A.shape[0]`). -/
def npOuter : NpArr → Nat
  | .d1 a => a.length
  | .d2 a => a.length
  | .d3 a => a.length

/-- `A.shape[1]`; `none` models the `IndexError` raised by `shape[1]`
on a 1-D array.  On the list model the extent of axis 1 is read off the
first row (numpy arrays are rectangular). -/
def shape1 : NpArr → Option Nat
  | .d1 _ => none
  | .d2 a => some (a.headD []).length
  | .d3 a => some (a.headD []).length

/-- Total number of scalar entries (`A.size`). -/
def npSize : NpArr → Nat
  | .d1 a => a.length
  | .d2 a => (a.map (·.length)).sum
  | .d3 a => (a.map (fun m => (m.map (·.length)).sum)).sum

/-- The all-zero array of the same shape as `A` (`np.zeros_like(A)`). -/
def npZeroLike : NpArr → NpArr
  | .d1 a => .d1 (a.map (fun _ => 0))
  | .d2 a => .d2 (a.map (fun r => r.map (fun _ => 0)))
  | .d3 a => .d3 (a.map (fun m => m.map (fun r => r.map (fun _ => 0))))

/-- Whether every axis-0 entry of a nested-list array has the axis-1
extent (`A.shape[1]`) read off the first entry: for a 2-D array, all
rows have equal length; for a 3-D array (entries themselves lists of
rows), all planes hold equally many rows.  numpy arrays always satisfy
this. -/
def rect2 {α : Type} (a : List (List α)) : Bool :=
  a.all (fun r => r.length = (a.headD []).length)

/-- Resolution of a (possibly negative) Python/numpy index against an
axis of length `n`: negative indices wrap once, anything further out of
range raises `IndexError` (modelled as `none`). -/
def npIdx (n : Nat) (i : Int) : Option Nat :=
  if 0 ≤ i then (if i < (n : Int) then some i.toNat else none)
  else (if -(n : Int) ≤ i then some (i + (n : Int)).toNat else none)

/-- Fancy row indexing `a[idxs]` along axis 0. -/
def selRows (a : List α) : List Int → Option (List α)
  | [] => some []
  | i :: is =>
    match npIdx a.length i with
    | none => none
    | some j =>
      match a.get? j with
      | none => none
      | some r =>
        match selRows a is with
        | none => none
        | some rs => some (r :: rs)

/-- numpy length-1 broadcasting of one axis to length `n`. -/
def bcastTo (n : Nat) (l : List α) : Option (List α) :=
  if l.length = n then some l
  else
    match l with
    | [x] => some (List.replicate n x)
    | _ => none

/-- Elementwise subtraction of two 1-D arrays with numpy length-1
broadcasting; `none` models the `ValueError` on non-broadcastable
shapes. -/
def sub1 (a b : List Int) : Option (List Int) :=
  match bcastTo (max a.length b.length) a, bcastTo (max a.length b.length) b with
  | some x, some y => some (List.zipWith (fun u v => u - v) x y)
  | _, _ => none

/-- Row-by-row subtraction of two (already broadcast, equal-length)
2-D arrays. -/
def sub2Rows : List (List Int) → List (List Int) → Option (List (List Int))
  | [], [] => some []
  | r :: rs, s :: ss =>
    match sub1 r s, sub2Rows rs ss with
    | some d, some ds => some (d :: ds)
    | _, _ => none
  | _, _ => none

/-- Elementwise subtraction of two 2-D arrays with per-axis length-1
broadcasting. -/
def sub2 (a b : List (List Int)) : Option (List (List Int)) :=
  match bcastTo (max a.length b.length) a, bcastTo (max a.length b.length) b with
  | some x, some y => sub2Rows x y
  | _, _ => none

/-- Plane-by-plane subtraction of two (already broadcast, equal-length)
3-D arrays. -/
def sub3Rows : List (List (List Int)) → List (List (List Int)) → Option (List (List (List Int)))
  | [], [] => some []
  | r :: rs, s :: ss =>
    match sub2 r s, sub3Rows rs ss with
    | some d, some ds => some (d :: ds)
    | _, _ => none
  | _, _ => none

/-- Elementwise subtraction of two 3-D arrays with per-axis length-1
broadcasting. -/
def sub3 (a b : List (List (List Int))) : Option (List (List (List Int))) :=
  match bcastTo (max a.length b.length) a, bcastTo (max a.length b.length) b with
  | some x, some y => sub3Rows x y
  | _, _ => none

/-- numpy elementwise subtraction `A - B`.  Arrays of smaller rank are
aligned on trailing axes by prepending length-1 axes, exactly as numpy
broadcasts across ranks. -/
def npSub : NpArr → NpArr → Option NpArr
  | .d1 a, .d1 b => (sub1 a b).map .d1
  | .d2 a, .d2 b => (sub2 a b).map .d2
  | .d3 a, .d3 b => (sub3 a b).map .d3
  | .d1 a, .d2 b => (sub2 [a] b).map .d2
  | .d2 a, .d1 b => (sub2 a [b]).map .d2
  | .d1 a, .d3 b => (sub3 [[a]] b).map .d3
  | .d3 a, .d1 b => (sub3 a [[b]]).map .d3
  | .d2 a, .d3 b => (sub3 [a] b).map .d3
  | .d3 a, .d2 b => (sub3 a [b]).map .d3

/-- `A[idxs]`: fancy indexing along axis 0 of an array of any rank. -/
def npSel : NpArr → List Int → Option NpArr
  | .d1 a, idxs => (selRows a idxs).map .d1
  | .d2 a, idxs => (selRows a idxs).map .d2
  | .d3 a, idxs => (selRows a idxs).map .d3

/-- `A[idxs, 0:k]`: fancy row indexing plus truncation of axis 1 (the
Python slice clamps, it never errors).  On a 1-D array the two indices
raise `IndexError` (`none`). -/
def npSelTrunc2 : NpArr → List Int → Nat → Option NpArr
  | .d1 _, _, _ => none
  | .d2 a, idxs, k => (selRows a idxs).map (fun rows => .d2 (rows.map (List.take k)))
  | .d3 a, idxs, k => (selRows a idxs).map (fun rows => .d3 (rows.map (List.take k)))

/-- `A[idxs, 0:k, :]`: as `npSelTrunc2` but with a third index, legal
only on 3-D arrays. -/
def npSelTrunc3 : NpArr → List Int → Nat → Option NpArr
  | .d3 a, idxs, k => (selRows a idxs).map (fun rows => .d3 (rows.map (List.take k)))
  | _, _, _ => none

/-- `A[..., i]`: indexing the last axis, dropping it.  A 1-D array would
give a scalar, which the comparison code never does (`none`). -/
def npLastIdx : NpArr → Int → Option NpArr
  | .d1 _, _ => none
  | .d2 a, i => (a.mapM (fun r => (npIdx r.length i).bind (r.get? ·))).map .d1
  | .d3 a, i =>
    (a.mapM (fun (m : List (List Int)) =>
      m.mapM (fun (r : List Int) => (npIdx r.length i).bind (r.get? ·)))).map .d2

/-- Whether two 2-D lists have identical (possibly ragged) shapes. -/
def sameShape2 (a b : List (List Int)) : Bool :=
  a.length = b.length && (List.zip a b).all (fun p => p.1.length = p.2.length)

/-- `np.array([A.T, B.T]).T` for two same-shaped arrays: the stacked
array one rank up whose last axis holds the pair `[A_e, B_e]` at every
entry `e`.  Differently-shaped operands (which old numpy rejects or
degrades to object arrays) and rank-3 operands (whose stack is rank 4,
never consumed downstream) are modelled as `none`. -/
def npStack2 : NpArr → NpArr → Option NpArr
  | .d1 a, .d1 b =>
    if a.length = b.length then some (.d2 (List.zipWith (fun x y => [x, y]) a b))
    else none
  | .d2 a, .d2 b =>
    if sameShape2 a b then
      some (.d3 (List.zipWith (fun r s => List.zipWith (fun x y => [x, y]) r s) a b))
    else none
  | _, _ => none

/-- A Python dict mapping output-file keys to arrays, in insertion
order. -/
abbrev Dict := List (String × NpArr)

/-- Python dict indexing `d[key]`; `none` models `KeyError`. -/
def dictLookup (key : String) : Dict → Option NpArr
  | [] => none
  | (k, v) :: rest => if k = key then some v else dictLookup key rest

/-- Python dict assignment `d[key] = v`: replaces an existing binding in
place, otherwise appends. -/
def dictInsert (d : Dict) (key : String) (v : NpArr) : Dict :=
  match d with
  | [] => [(key, v)]
  | (k, w) :: rest =>
    if k = key then (key, v) :: rest else (k, w) :: dictInsert rest key v

/-- `d.keys()` in insertion order. -/
def keysOf (d : Dict) : List String :=
  d.map (·.1)

/-- `fid.replace('.', '')`, turning a file name such as `fort.63` into
the dict key `fort63`. -/
def stripDots (s : String) : String :=
  ⟨s.data.filter (fun c => c ≠ '.')⟩

/-- One iteration of the non-timeseries loop of
`subdomain.compare_runSet` (subdomain.py lines 348-351): restrict the
full-domain array to the mapped nodes and subtract the subdomain
array. -/
def ntsStep (nodes : List Int) (nts_sub nts_full : Dict) (key : String) :
    Option NpArr :=
  match dictLookup key nts_full with
  | none => none
  | some fullA =>
    match npSel fullA nodes with
    | none => none
    | some fullSel =>
      match dictLookup key nts_sub with
      | none => none
      | some subA => npSub fullSel subA

/-- The non-timeseries loop of `subdomain.compare_runSet`. -/
def ntsLoop (nodes : List Int) (nts_sub nts_full : Dict) :
    List String → Dict → Option Dict
  | [], acc => some acc
  | key :: rest, acc =>
    match ntsStep nodes nts_sub nts_full key with
    | none => none
    | some err => ntsLoop nodes nts_sub nts_full rest (dictInsert acc key err)

/-- One iteration of the timeseries loop of `subdomain.compare_runSet`
(subdomain.py lines 371-377): the full-domain array is restricted to
the mapped nodes and truncated to the subdomain's observation count
(2-D or 3-D slice selected by the recording flag), and the subdomain
array is subtracted. -/
def tsStep (rec2 : String → Bool) (nodes : List Int) (ts_sub ts_full : Dict)
    (key : String) : Option NpArr :=
  match dictLookup key ts_sub with
  | none => none
  | some subA =>
    match shape1 subA with
    | none => none
    | some total_obs =>
      match dictLookup key ts_full with
      | none => none
      | some fullA =>
        match (if rec2 key then npSelTrunc2 fullA nodes total_obs
               else npSelTrunc3 fullA nodes total_obs) with
        | none => none
        | some fullSel => npSub fullSel subA

/-- The timeseries loop of `subdomain.compare_runSet` (subdomain.py
lines 365-377): `fort61` and `fort62` are skipped, every other key is
processed by `tsStep`. -/
def tsLoop (rec2 : String → Bool) (nodes : List Int) (ts_sub ts_full : Dict) :
    List String → Dict → Option Dict
  | [], acc => some acc
  | key :: rest, acc =>
    if key = "fort61" ∨ key = "fort62" then
      tsLoop rec2 nodes ts_sub ts_full rest acc
    else
      match tsStep rec2 nodes ts_sub ts_full key with
      | none => none
      | some err => tsLoop rec2 nodes ts_sub ts_full rest (dictInsert acc key err)

/-- `subdomain.compare_runSet` (subdomain.py lines 298-394), the
comparison variant whose (subdomain, fulldomain) array dictionaries are
supplied directly.  Key lists default to the keys of the subdomain
dictionaries; `fort63` triggers the external dry-node correction and
`fort61` the external dry-data correction on both dictionaries.  The
external corrections `fixN` (`rmn.fix_dry_nodes`) and `fixD`
(`rmn.fix_dry_data`), the recording descriptor `rec2`
(`self.recording[key][2] == 1`) and the node map
(`self.sub2full_node`) are modelled from the spec: their code lives
outside this repository slice; the spec treats the corrections as pure
functions on the data bundle.  The final `none` guard models the
`ValueError` that `np.max` raises, while printing each error matrix,
when an error matrix is empty.  Returns `(ts_error, nts_error)`. -/
def compare_runSet (fixN fixD : Dict → Dict) (rec2 : String → Bool)
    (nodeMap : List (Int × Int)) (ts_sub ts_full nts_sub nts_full : Dict)
    (ts_names nts_names : Option (List String)) : Option (Dict × Dict) :=
  let nts_keys := match nts_names with
    | none => keysOf nts_sub
    | some names => names.map stripDots
  let ts_keys := match ts_names with
    | none => keysOf ts_sub
    | some names => names.map stripDots
  let nodes := nodeMap.map (fun p => p.2 - 1)
  match ntsLoop nodes nts_sub nts_full nts_keys [] with
  | none => none
  | some nts_error =>
    let p1 := if "fort63" ∈ ts_keys then (fixN ts_sub, fixN ts_full)
              else (ts_sub, ts_full)
    let p2 := if "fort61" ∈ ts_keys then (fixD p1.1, fixD p1.2) else p1
    match tsLoop rec2 nodes p2.1 p2.2 ts_keys [] with
    | none => none
    | some ts_error =>
      if (nts_error ++ ts_error).all (fun q => 0 < npSize q.2) then
        some (ts_error, nts_error)
      else none

/-- The tuple returned by `subdomain.compare_to_fulldomain`. -/
structure CmpResult where
  ts_error : Dict
  nts_error : Dict
  time_obs : Dict
  ts_data : Dict
  nts_data : Dict
deriving DecidableEq

/-- The non-timeseries loop of `subdomain.compare_to_fulldomain`
(subdomain.py lines 433-440): reads both arrays from disk, restricts
the full-domain one to the mapped nodes, subtracts, and stacks the
pair into `nts_data`. -/
def c2fNtsLoop (nodes : List Int) (fullPath subPath : String)
    (getNts : String → String → NpArr) :
    List String → Dict → Dict → Option (Dict × Dict)
  | [], ntsErr, ntsData => some (ntsErr, ntsData)
  | fid :: rest, ntsErr, ntsData =>
    let key := stripDots fid
    match npSel (getNts fullPath fid) nodes with
    | none => none
    | some fullSel =>
      let subA := getNts subPath fid
      match npSub fullSel subA with
      | none => none
      | some err =>
        match npStack2 fullSel subA with
        | none => none
        | some stacked =>
          c2fNtsLoop nodes fullPath subPath getNts rest
            (dictInsert ntsErr key err) (dictInsert ntsData key stacked)

/-- The first timeseries loop of `subdomain.compare_to_fulldomain`
(subdomain.py lines 442-453): reads both arrays from disk, restricts
and truncates the full-domain one, records the observation times, and
stacks the (full, sub) pair into `ts_data`.  Note: no key is skipped
here. -/
def c2fTsLoop1 (rec2 : String → Bool) (nodes : List Int)
    (fullPath subPath : String) (getTs : String → String → NpArr × NpArr) :
    List String → Dict → Dict → Option (Dict × Dict)
  | [], timeObs, tsData => some (timeObs, tsData)
  | fid :: rest, timeObs, tsData =>
    let key := stripDots fid
    let subA := (getTs subPath fid).1
    match shape1 subA with
    | none => none
    | some total_obs =>
      match (if rec2 key then npSelTrunc2 (getTs fullPath fid).1 nodes total_obs
             else npSelTrunc3 (getTs fullPath fid).1 nodes total_obs) with
      | none => none
      | some fullSel =>
        let timeA := (getTs subPath fid).2
        match npStack2 fullSel subA with
        | none => none
        | some stacked =>
          c2fTsLoop1 rec2 nodes fullPath subPath getTs rest
            (dictInsert timeObs key timeA) (dictInsert tsData key stacked)

/-- The second timeseries loop of `subdomain.compare_to_fulldomain`
(subdomain.py lines 463-466): for each requested timeseries key it
subtracts the stacked pair's two last-axis slices — and stores the
result into `nts_error`, not `ts_error`. -/
def c2fTsLoop2 (tsData : Dict) : List String → Dict → Option Dict
  | [], acc => some acc
  | fid :: rest, acc =>
    let key := stripDots fid
    match dictLookup key tsData with
    | none => none
    | some v =>
      match npLastIdx v 0 with
      | none => none
      | some a =>
        match npLastIdx v 1 with
        | none => none
        | some b =>
          match npSub a b with
          | none => none
          | some err => c2fTsLoop2 tsData rest (dictInsert acc key err)

/-- `subdomain.compare_to_fulldomain` (subdomain.py lines 396-487), the
comparison variant that reads the output arrays from disk itself.  The
external output readers `getTs`/`getNts` (`output.get_ts_sr`,
`output.get_nts_sr`: `(path, file name) → (array, time array)` and
`(path, file name) → array`), the dry corrections `fixN`/`fixD`, the
recording descriptor `rec2` and the node map are modelled from the
spec as for `compare_runSet`.  `ts_error` is created empty and never
written: the per-key timeseries differences land in `nts_error`.  The
final guard models the `ValueError` from `np.max` on an empty error
matrix during the export printing. -/
def compare_to_fulldomain (fixN fixD : Dict → Dict) (rec2 : String → Bool)
    (nodeMap : List (Int × Int)) (fullPath subPath : String)
    (getTs : String → String → NpArr × NpArr) (getNts : String → String → NpArr)
    (ts_names nts_names : List String) : Option CmpResult :=
  let nodes := nodeMap.map (fun p => p.2 - 1)
  match c2fNtsLoop nodes fullPath subPath getNts nts_names [] [] with
  | none => none
  | some (ntsErr0, ntsData) =>
    match c2fTsLoop1 rec2 nodes fullPath subPath getTs ts_names [] [] with
    | none => none
    | some (timeObs, tsData0) =>
      let tsData1 := if (dictLookup "fort63" tsData0).isSome then fixN tsData0
                     else tsData0
      let tsData2 := if (dictLookup "fort61" tsData1).isSome then fixD tsData1
                     else tsData1
      match c2fTsLoop2 tsData2 ts_names ntsErr0 with
      | none => none
      | some ntsErr =>
        let ts_error : Dict := []
        if (ntsErr ++ ts_error).all (fun q => 0 < npSize q.2) then
          some ⟨ts_error, ntsErr, timeObs, tsData2, ntsData⟩
        else none

/-!
Filesystem-level operations.  A domain directory is modelled by the
list of its file paths relative to the directory root (nested files
such as `PE0000/fort.065` keep their slash).  Subprocess invocations,
control-file writes and printed messages are recorded as effects.
-/

/-- An observable side effect of the generator entry points. -/
inductive Effect where
  | write (path : String) (lines : List String)
  | call (cmd : String)
  | printMsg (msg : String)
deriving DecidableEq

/-- Whether a relative path matches the glob `fort.06*` directly under
the domain directory (`*` never matches a path separator). -/
def isGlobFort06 (s : String) : Bool :=
  "fort.06".data.isPrefixOf s.data && !(s.data.contains '/')

/-- Whether a relative path matches the glob `PE*/fort.065`: a first
component starting with `PE` and containing no separator, then exactly
the file `fort.065`. -/
def isGlobPE065 (s : String) : Bool :=
  "PE".data.isPrefixOf s.data && "/fort.065".data.isSuffixOf s.data &&
  decide (11 ≤ s.data.length) &&
  !(((s.data.drop 2).take (s.data.length - 11)).contains '/')

/-- `fulldomain.check_fulldomain` (fulldomain.py lines 153-163): both
glob patterns must match at least one existing file; only names are
inspected, never contents (the model carries no contents at all). -/
def fulldomain.check_fulldomain (files : List String) : Bool :=
  0 < (files.filter (fun f => isGlobFort06 f)).length &&
  0 < (files.filter (fun f => isGlobPE065 f)).length

/-- The message printed and returned by `subdomain.genbcs` (and
`fulldomain.genbcss`) when the full-domain output files are absent. -/
def sentinel : String :=
  "Output files from the fulldomain run do not exist"

/-- The state of a `fulldomain` object needed by `genfull`. -/
structure FDState where
  path : String
  script_dir : String
  files : List String
  subdomainPaths : List String
deriving DecidableEq

/-- `fulldomain.genfull` (fulldomain.py lines 76-108): writes
`genfull.in` (flags, then one line per requested subdomain path) and
invokes the external generator, returning the command line.  There is
no precondition check of any kind. -/
def fulldomain.genfull (fd : FDState) (noutgs nspoolgs : Int)
    (subdomains : Option (List String)) : List Effect × String :=
  let subs := subdomains.getD fd.subdomainPaths
  if subs.length = 0 then
    let lines := [toString noutgs, toString nspoolgs]
    let command := "python " ++ (fd.script_dir ++ (" -a " ++ (fd.path ++ ("/ " ++ " < genfull.in"))))
    ([Effect.write (fd.path ++ "/genfull.in") lines, Effect.call command], command)
  else
    let lines := [toString noutgs, toString nspoolgs] ++ subs.map (fun s => s ++ "/")
    let command := "python " ++ (fd.script_dir ++ ("/genfull.py -s " ++ (fd.path ++ ("/ " ++ (toString subs.length ++ " < genfull.in")))))
    ([Effect.write (fd.path ++ "/genfull.in") lines, Effect.call command], command)

/-- The state of a `subdomain` object needed by `genbcs`.  `h0str` and
`fdDtStr` are the textual renderings of the floating-point defaults
`self.h0` and `self.fulldomain.time.dt`, which `genbcs` only ever
interpolates into the command line, never computes with. -/
structure SubState where
  path : String
  script_dir : String
  fdPath : String
  fdFiles : List String
  h0str : String
  fdDtStr : String
deriving DecidableEq

/-- `subdomain.genbcs` (subdomain.py lines 170-199): when
`check_fulldomain` holds, fills in the `dt`/`h0` defaults, invokes the
external boundary-condition generator and returns the command line;
otherwise prints the sentinel message and returns it without invoking
anything. -/
def subdomain.genbcs (s : SubState) (forcing_freq : Int) (dt : Option String)
    (nspoolgs : Int) (h0 : Option String) : List Effect × String :=
  if fulldomain.check_fulldomain s.fdFiles then
    let h0v := h0.getD s.h0str
    let dtv := dt.getD s.fdDtStr
    let command := "python " ++ (s.script_dir ++ ("/genbcs.py -p " ++
      (s.fdPath ++ ("/ " ++ (s.path ++ ("/ " ++ (toString forcing_freq ++ (" " ++
      (dtv ++ (" " ++ (toString nspoolgs ++ (" " ++ h0v))))))))))))
    ([Effect.call command], command)
  else
    ([Effect.printMsg sentinel], sentinel)

/-- `subdomain.check` (subdomain.py lines 287-296): the `fort.019`
boundary-condition artifact exists (`len(glob(path/fort.019)) > 0`). -/
def subdomain.check (files : List String) : Bool :=
  0 < (files.filter (fun f => f = "fort.019")).length

/-- `fulldomain.check_subdomains` (fulldomain.py lines 165-178): the
loop returns on its first iteration — `some false` or `some true`
according to the first subdomain's `check()` — and falls through to an
implicit `None` (`none`) when the subdomain list is empty. -/
def fulldomain.check_subdomains (subFiles : List (List String)) : Option Bool :=
  match subFiles with
  | [] => none
  | s :: _ => if !(subdomain.check s) then some false else some true

/-- The shape-related state of a `subdomain` object: its directory
listing and the shape flag (`None` unset, `0` ellipse, `1` circle). -/
structure ShapeSt where
  files : List String
  flag : Option Int
deriving DecidableEq

/-- Creation (or overwrite) of a file named `name`. -/
def insertFile (name : String) (files : List String) : List String :=
  if name ∈ files then files else files ++ [name]

/-- `subdomain.circle` (subdomain.py lines 201-216): writes the
`shape.c14` descriptor (its numeric content is irrelevant to the flag
logic) and sets the shape flag to `1`. -/
def subdomain.circle (s : ShapeSt) : ShapeSt :=
  ⟨insertFile "shape.c14" s.files, some 1⟩

/-- `subdomain.ellipse` (subdomain.py lines 218-234): writes the
`shape.e14` descriptor and sets the shape flag to `0`. -/
def subdomain.ellipse (s : ShapeSt) : ShapeSt :=
  ⟨insertFile "shape.e14" s.files, some 0⟩

/-- The flag-inference block inside `subdomain.setup` (subdomain.py
lines 260-266), entered with `self.flag` equal to `stored`: a present
`shape.c14` sets the flag to `1`, then a present `shape.e14` overrides
it to `0` (the ellipse glob runs second). -/
def subdomain.inferFlag (files : List String) (stored : Option Int) : Option Int :=
  let f1 := if 0 < (files.filter (fun f => f = "shape.c14")).length then some 1
            else stored
  if 0 < (files.filter (fun f => f = "shape.e14")).length then some 0 else f1

/-- The complete flag logic of `subdomain.setup` (subdomain.py lines
259-268): infer from the disk artifacts only when both the `flag`
argument and the stored flag are `None`; otherwise a non-`None`
argument wins, and failing that the stored flag is kept. -/
def subdomain.setupFlag (flagArg : Option Int) (s : ShapeSt) : Option Int :=
  if flagArg = none ∧ s.flag = none then subdomain.inferFlag s.files s.flag
  else if flagArg ≠ none then flagArg
  else s.flag

/-- Python `str()` of the shape flag as `gensub` interpolates it:
`str(None) = "None"`, `str(0) = "0"`, `str(1) = "1"`. -/
def pyStr : Option Int → String
  | none => "None"
  | some n => toString n

/-- The command line built by `subdomain.gensub` (subdomain.py lines
134-142), with the flag rendered by `str()` and the optional `fort.13`
arguments controlled by the full domain's attribute file. -/
def subdomain.gensubCommand (script_dir fdPath : String) (flag : Option Int)
    (fort13 : Bool) : String :=
  let c := "python " ++ (script_dir ++ ("/gensub.py " ++ (fdPath ++ ("/fort.14 " ++
    (pyStr flag ++ (" " ++ "fort.14 "))))))
  let c2 := if fort13 then c ++ (fdPath ++ ("/fort.13 " ++ "fort.13 ")) else c
  c2 ++ "< gensub.in"

/-- `subdomain.setup` reduced to its observable flag outcome and the
`gensub` command it subsequently issues (subdomain.py lines 259-275
followed by the `gensub` call; the deletion of the stale artifact list
touches neither the flag nor the command). -/
def subdomain.setup (flagArg : Option Int) (s : ShapeSt)
    (script_dir fdPath : String) (fort13 : Bool) : Option Int × String :=
  let flag := subdomain.setupFlag flagArg s
  (flag, subdomain.gensubCommand script_dir fdPath flag fort13)

/-!
Mapping-file parsing.  A mapping file is modelled as the list of its
lines, each line as the list of integers `np.fromstring(line,
dtype=int, sep=' ')` lexes from it.
-/

/-- One pass of the `read_py_node` / `read_py_ele` body over the data
lines: the tuple unpacking `k, v = np.fromstring(...)` succeeds exactly
on a two-integer line and raises `ValueError` (`none`) otherwise. -/
def parseMapLines : List (List Int) → Option (List (Int × Int))
  | [] => some []
  | fields :: rest =>
    match fields with
    | [k, v] =>
      match parseMapLines rest with
      | some ps => some ((k, v) :: ps)
      | none => none
    | _ => none

/-- `subdomain.read_py_node` (subdomain.py lines 499-514): skip the
header line, then store each line's first integer as key and second as
value. -/
def subdomain.read_py_node (lines : List (List Int)) : Option (List (Int × Int)) :=
  parseMapLines (lines.drop 1)

/-- `subdomain.read_py_ele` (subdomain.py lines 516-531): identical
parsing of the element-map artifact. -/
def subdomain.read_py_ele (lines : List (List Int)) : Option (List (Int × Int)) :=
  parseMapLines (lines.drop 1)

/-- `subdomain.update_sub2full_map` (subdomain.py lines 533-540): parse
the node map, then the element map. -/
def subdomain.update_sub2full_map (nodeLines eleLines : List (List Int)) :
    Option (List (Int × Int) × List (Int × Int)) :=
  match subdomain.read_py_node nodeLines with
  | none => none
  | some n =>
    match subdomain.read_py_ele eleLines with
    | none => none
    | some e => some (n, e)

/-- The (key, value) pairs a well-formed mapping file denotes: first
field of each data line as key, second as value. -/
def mapPairs (lines : List (List Int)) : List (Int × Int) :=
  (lines.drop 1).map (fun l => (l.headD 0, (l.drop 1).headD 0))

/-- The integers `k, k+1, …, k+m-1`. -/
def intRange : Nat → Nat → List Int
  | _, 0 => []
  | k, m + 1 => (k : Int) :: intRange (k + 1) m

/-- Helper for `idNodeMap`: identity pairs `(k,k), …`. -/
def idAux : Nat → Nat → List (Int × Int)
  | _, 0 => []
  | k, m + 1 => ((k : Int), (k : Int)) :: idAux (k + 1) m

/-- The identity node map on `n` nodes: subdomain node `i` is
full-domain node `i` (1-based on both sides), as when a domain is
compared against itself. -/
def idNodeMap (n : Nat) : List (Int × Int) :=
  idAux 1 n

/-- Concrete full-domain `fort.63` array of the end-to-end scenario:
10 nodes, 2 observations, node `i` carrying `[10*i, 10*i+1]`. -/
def c1FullArr : NpArr :=
  .d2 [[0, 1], [10, 11], [20, 21], [30, 31], [40, 41],
       [50, 51], [60, 61], [70, 71], [80, 81], [90, 91]]

/-- Concrete subdomain `fort.63` array of the end-to-end scenario. -/
def c1SubArr : NpArr := .d2 [[1, 2], [3, 4]]

/-- Output reader of the end-to-end scenario: the full-domain directory
holds `c1FullArr`, the subdomain directory `c1SubArr`, with observation
times `[0, 1]`. -/
def c1GetTs (p : String) (_fid : String) : NpArr × NpArr :=
  if p = "full" then (c1FullArr, .d1 [0, 1]) else (c1SubArr, .d1 [0, 1])

/-- Non-timeseries reader of the end-to-end scenario (never consulted:
no non-timeseries keys are requested). -/
def c1GetNts (_p : String) (_fid : String) : NpArr := .d1 []

/-- Concrete full-domain station array used to probe the `fort.61`
handling of the from-disk variant. -/
def c2FullArr : NpArr := .d2 [[0], [1], [2], [3], [4], [5], [6], [7], [8], [9]]

/-- Concrete subdomain station array for the `fort.61` probe. -/
def c2SubArr : NpArr := .d2 [[5], [7]]

/-- Output reader for the `fort.61` probe. -/
def c2GetTs (p : String) (_fid : String) : NpArr × NpArr :=
  if p = "full" then (c2FullArr, .d1 [0]) else (c2SubArr, .d1 [0])

/-- Non-timeseries reader for the `fort.61` probe (never consulted). -/
def c2GetNts (_p : String) (_fid : String) : NpArr := .d1 []

lemma filter_pos_iff {α : Type} (p : α → Bool) (l : List α) :
    0 < (l.filter p).length ↔ ∃ x ∈ l, p x = true := by
  rw [List.length_pos, Ne, List.filter_eq_nil]
  push_neg
  simp

lemma mem_iff_filter_pos (a : String) (l : List String) :
    0 < (l.filter (fun f => f = a)).length ↔ a ∈ l := by
  rw [filter_pos_iff]
  simp

lemma map_idAux : ∀ (m k : Nat),
    (idAux (k + 1) m).map (fun p => p.2 - 1) = intRange k m := by
  intro m
  induction m with
  | zero => intro k; rfl
  | succ m ih =>
    intro k
    simp only [idAux, intRange, List.map_cons, ih]
    congr 1
    push_cast
    ring

lemma map_idNodeMap (n : Nat) :
    (idNodeMap n).map (fun p => p.2 - 1) = intRange 0 n :=
  map_idAux n 0

lemma selRows_intRange {α : Type} : ∀ (xs pre : List α),
    selRows (pre ++ xs) (intRange pre.length xs.length) = some xs := by
  intro xs
  induction xs with
  | nil => intro pre; rfl
  | cons x xs ih =>
    intro pre
    have hidx : npIdx (pre ++ x :: xs).length ((pre.length : Nat) : Int) = some pre.length := by
      have hlen : (pre ++ x :: xs).length = pre.length + (xs.length + 1) := by simp
      simp only [npIdx, hlen]
      rw [if_pos (by positivity),
        if_pos (by exact_mod_cast Nat.lt_add_of_pos_right (Nat.succ_pos _))]
      simp
    have hget : (pre ++ x :: xs).get? pre.length = some x := by
      rw [List.get?_append_right (le_refl _)]
      simp
    have hrec : selRows (pre ++ x :: xs) (intRange (pre.length + 1) xs.length) = some xs := by
      have h2 := ih (pre ++ [x])
      simpa using h2
    simp only [intRange, selRows, hidx, hget, hrec]

lemma selRows_self {α : Type} (a : List α) :
    selRows a (intRange 0 a.length) = some a := by
  have := selRows_intRange a ([] : List α)
  simpa using this

lemma npSel_id (A : NpArr) : npSel A (intRange 0 (npOuter A)) = some A := by
  cases A <;> simp [npSel, npOuter, selRows_self]

lemma zipWith_sub_self : ∀ (a : List Int),
    List.zipWith (fun u v => u - v) a a = a.map (fun _ => (0 : Int)) := by
  intro a
  induction a with
  | nil => rfl
  | cons x xs ih => simp [ih]

lemma sub1_self (a : List Int) : sub1 a a = some (a.map (fun _ => (0 : Int))) := by
  simp [sub1, bcastTo, zipWith_sub_self]

lemma sub2Rows_self : ∀ (a : List (List Int)),
    sub2Rows a a = some (a.map (fun r => r.map (fun _ => (0 : Int)))) := by
  intro a
  induction a with
  | nil => rfl
  | cons r rs ih => simp [sub2Rows, sub1_self, ih]

lemma sub2_self (a : List (List Int)) :
    sub2 a a = some (a.map (fun r => r.map (fun _ => (0 : Int)))) := by
  simp [sub2, bcastTo, sub2Rows_self]

lemma sub3Rows_self : ∀ (a : List (List (List Int))),
    sub3Rows a a = some (a.map (fun m => m.map (fun r => r.map (fun _ => (0 : Int))))) := by
  intro a
  induction a with
  | nil => rfl
  | cons m ms ih => simp [sub3Rows, sub2_self, ih]

lemma sub3_self (a : List (List (List Int))) :
    sub3 a a = some (a.map (fun m => m.map (fun r => r.map (fun _ => (0 : Int))))) := by
  simp [sub3, bcastTo, sub3Rows_self]

lemma npSub_self (A : NpArr) : npSub A A = some (npZeroLike A) := by
  cases A <;> simp [npSub, npZeroLike, sub1_self, sub2_self, sub3_self]

lemma npSize_zeroLike (A : NpArr) : npSize (npZeroLike A) = npSize A := by
  cases A <;>
    simp [npSize, npZeroLike, List.map_map, Function.comp_def, List.length_replicate]

lemma dictLookup_insert_ne (k key : String) (v : NpArr) (h : k ≠ key) :
    ∀ (d : Dict), dictLookup k (dictInsert d key v) = dictLookup k d := by
  intro d
  induction d with
  | nil => simp [dictInsert, dictLookup, Ne.symm h]
  | cons p rest ih =>
    obtain ⟨a, b⟩ := p
    by_cases ha : a = key
    · subst ha
      simp [dictInsert, dictLookup, Ne.symm h]
    · simp [dictInsert, dictLookup, ha, ih]

lemma tsLoop_lookup_none (rec2 : String → Bool) (nodes : List Int)
    (tsub tfull : Dict) (k : String) (hk : k = "fort61" ∨ k = "fort62") :
    ∀ (keys : List String) (acc d : Dict), dictLookup k acc = none →
      tsLoop rec2 nodes tsub tfull keys acc = some d → dictLookup k d = none := by
  intro keys
  induction keys with
  | nil =>
    intro acc d hacc h
    simp only [tsLoop] at h
    cases h
    exact hacc
  | cons key rest ih =>
    intro acc d hacc h
    simp only [tsLoop] at h
    by_cases hskip : key = "fort61" ∨ key = "fort62"
    · rw [if_pos hskip] at h
      exact ih acc d hacc h
    · rw [if_neg hskip] at h
      have hkey : k ≠ key := by
        rcases hk with hk | hk <;> subst hk <;> intro hc <;> subst hc <;>
          simp at hskip
      split at h
      · exact Option.noConfusion h
      · refine ih _ d ?_ h
        rw [dictLookup_insert_ne k key _ hkey acc]
        exact hacc

lemma selRows_mem {α : Type} : ∀ (is : List Int) (a rs : List α),
    selRows a is = some rs → ∀ r ∈ rs, r ∈ a := by
  intro is
  induction is with
  | nil =>
    intro a rs h r hr
    simp only [selRows] at h
    cases h
    simp at hr
  | cons i is ih =>
    intro a rs h r hr
    simp only [selRows] at h
    split at h
    · exact Option.noConfusion h
    · split at h
      · exact Option.noConfusion h
      · rename_i r0 hr0
        split at h
        · exact Option.noConfusion h
        · rename_i rs0 hrs0
          cases h
          rcases List.mem_cons.mp hr with h1 | h1
          · subst h1
            exact List.get?_mem hr0
          · exact ih a rs0 hrs0 r h1

lemma parseMapLines_ok : ∀ (lines : List (List Int)),
    (∀ l ∈ lines, l.length = 2) →
    parseMapLines lines =
      some (lines.map (fun l => (l.headD 0, (l.drop 1).headD 0))) := by
  intro lines
  induction lines with
  | nil => intro _; rfl
  | cons f rest ih =>
    intro h
    have hf : f.length = 2 := h f (by simp)
    have hrest := ih (fun l hl => h l (by simp [hl]))
    rcases f with _ | ⟨a, f⟩
    · simp at hf
    rcases f with _ | ⟨b, f⟩
    · simp at hf
    rcases f with _ | ⟨c, f⟩
    · simp [parseMapLines, hrest]
    · simp at hf

lemma parseMapLines_bad : ∀ (lines : List (List Int)) (l : List Int),
    l ∈ lines → l.length ≠ 2 → parseMapLines lines = none := by
  intro lines
  induction lines with
  | nil =>
    intro l hl
    simp at hl
  | cons f rest ih =>
    intro l hl hlen
    rcases List.mem_cons.mp hl with h1 | h1
    · subst h1
      cases hrec : parseMapLines rest <;>
        (rcases l with _ | ⟨a, l⟩
         · simp [parseMapLines, hrec]
         · rcases l with _ | ⟨b, l⟩
           · simp [parseMapLines, hrec]
           · rcases l with _ | ⟨c, l⟩
             · simp at hlen
             · simp [parseMapLines, hrec])
    · have hrec := ih l h1 hlen
      rcases f with _ | ⟨a, f⟩
      · simp [parseMapLines, hrec]
      · rcases f with _ | ⟨b, f⟩
        · simp [parseMapLines, hrec]
        · rcases f with _ | ⟨c, f⟩
          · simp [parseMapLines, hrec]
          · simp [parseMapLines, hrec]

lemma map_take_rect {α : Type} (a : List (List α)) (h : rect2 a = true) :
    a.map (List.take (a.headD []).length) = a := by
  have h2 : ∀ r ∈ a, r.take (a.headD []).length = r := by
    intro r hr
    have h3 : r.length = (a.headD []).length := by
      have h4 := (List.all_eq_true.mp h) r hr
      simpa using h4
    rw [← h3, List.take_length]
  calc a.map (List.take (a.headD []).length) = a.map id := List.map_congr_left h2
    _ = a := List.map_id a

lemma mem_insertFile (name : String) (files : List String) :
    name ∈ insertFile name files := by
  by_cases h : name ∈ files <;> simp [insertFile, h]

lemma mem_insertFile_ne (b name : String) (files : List String) (h : b ≠ name) :
    b ∈ insertFile name files ↔ b ∈ files := by
  by_cases h2 : name ∈ files <;> simp [insertFile, h2, h]

lemma python_ne_sentinel (x : String) : "python " ++ x ≠ sentinel := by
  intro h
  have h2 : ("python " ++ x).data = sentinel.data := by rw [h]
  have h3 : ("python ".data ++ x.data).headD ' ' = sentinel.data.headD ' ' :=
    congrArg (fun l => l.headD ' ') h2
  have h4 : ("python ".data ++ x.data).headD ' ' = 'p' := rfl
  have h5 : sentinel.data.headD ' ' = 'O' := rfl
  rw [h4, h5] at h3
  exact absurd h3 (by decide)

/-- Claim C1 (code bug): in the end-to-end scenario — full domain of 10
nodes, node map `{1:3, 2:7}`, full-domain `fort63` array of shape
(10,2) with node `i` carrying `[10*i, 10*i+1]`, subdomain array
`[[1,2],[3,4]]`, no dry nodes (identity corrections) — the from-disk
comparison does compute the difference `full[[2,6],:] - sub =
[[19,19],[57,57]]`, but returns it under the `nts_error` component
keyed `fort63`, while the timeseries-error component `ts_error` of the
returned tuple is empty: the final per-key loop (under the source
comment saying it collects `ts_error`) assigns into `nts_error`, so
the claimed `ts_error['fort63']` entry never exists. -/
theorem C1_theorem :
    compare_to_fulldomain id id (fun _ => true) [(1, 3), (2, 7)] "full" "sub"
      c1GetTs c1GetNts ["fort.63"] [] =
      some ⟨[], [("fort63", NpArr.d2 [[19, 19], [57, 57]])],
        [("fort63", NpArr.d1 [0, 1])],
        [("fort63", NpArr.d3 [[[20, 1], [21, 2]], [[60, 3], [61, 4]]])], []⟩ ∧
    (compare_to_fulldomain id id (fun _ => true) [(1, 3), (2, 7)] "full" "sub"
      c1GetTs c1GetNts ["fort.63"] []).map CmpResult.ts_error = some [] := by decide

/-- Claim C2, counterexample: the from-disk variant
(`compare_to_fulldomain`) has no `fort61`/`fort62` skip — with
`ts_names = ['fort.61']` it computes and returns a difference entry for
key `fort61` (placed, like all its per-key timeseries differences, in
the `nts_error` component), so it is not the variant that "produces no
timeseries difference entry for those keys". -/
theorem C2_counterexample :
    compare_to_fulldomain id id (fun _ => true) [(1, 3), (2, 7)] "full" "sub"
      c2GetTs c2GetNts ["fort.61"] [] =
      some ⟨[], [("fort61", NpArr.d2 [[-3], [-1]])], [("fort61", NpArr.d1 [0])],
        [("fort61", NpArr.d3 [[[2, 5]], [[6, 7]]])], []⟩ ∧
    dictLookup "fort61" [("fort61", NpArr.d2 [[-3], [-1]])] =
      some (NpArr.d2 [[-3], [-1]]) := by decide

/-- Claim C2 (amended): the explicit `fort61`/`fort62` skip sits in the
per-key timeseries loop of the precomputed variant `compare_runSet`,
not the from-disk one: whenever `compare_runSet` returns, its
timeseries-error dictionary has no entry for `fort61` or `fort62`,
whatever the requested key lists, data, node map, recording flags and
dry corrections are. -/
theorem C2_amended_theorem (fixN fixD : Dict → Dict) (rec2 : String → Bool)
    (nodeMap : List (Int × Int)) (ts_sub ts_full nts_sub nts_full : Dict)
    (ts_names nts_names : Option (List String)) (ts nts : Dict)
    (h : compare_runSet fixN fixD rec2 nodeMap ts_sub ts_full nts_sub nts_full
      ts_names nts_names = some (ts, nts)) :
    dictLookup "fort61" ts = none ∧ dictLookup "fort62" ts = none := by
  simp only [compare_runSet] at h
  split at h
  · exact Option.noConfusion h
  · split at h
    · exact Option.noConfusion h
    · rename_i ts_err hts
      split at h
      · rw [Option.some.injEq, Prod.mk.injEq] at h
        obtain ⟨rfl, rfl⟩ := h
        exact ⟨tsLoop_lookup_none rec2 _ _ _ "fort61" (Or.inl rfl) _ [] ts_err rfl hts,
          tsLoop_lookup_none rec2 _ _ _ "fort62" (Or.inr rfl) _ [] ts_err rfl hts⟩
      · exact Option.noConfusion h

/-- Witness for C2 (amended): `compare_runSet` with
`ts_names = ['fort.61']` succeeds with an empty timeseries-error
dictionary, carrying no `fort61`/`fort62` entry. -/
theorem C2_amended_witness :
    dictLookup "fort61" ([] : Dict) = none ∧ dictLookup "fort62" ([] : Dict) = none :=
  C2_amended_theorem id id (fun _ => true) [] [] [] [] [] (some ["fort.61"])
    (some []) [] [] (by decide)

/-- Claim C3, counterexample: a fulldomain whose directory is empty has
`check_fulldomain() = false`, yet `genfull` still writes the
control-parameter file `genfull.in`, still invokes the external
generator, and returns the command line rather than the sentinel
string — it does not fail silently on that precondition. -/
theorem C3_counterexample :
    fulldomain.check_fulldomain ([] : List String) = false ∧
    fulldomain.genfull ⟨"/fd", "/scripts", [], ["/s1"]⟩ 1 1 none =
      ([Effect.write "/fd/genfull.in" ["1", "1", "/s1/"],
        Effect.call "python /scripts/genfull.py -s /fd/ 1 < genfull.in"],
       "python /scripts/genfull.py -s /fd/ 1 < genfull.in") ∧
    "python /scripts/genfull.py -s /fd/ 1 < genfull.in" ≠ sentinel := by decide

/-- Claim C3 (amended): `genfull` contains no `check_fulldomain`
precondition at all — for every state and arguments it writes the
control file and invokes the generator, returning a `python …` command
line that is never the sentinel; the print-and-return-sentinel silent
failure on a false `check_fulldomain()` belongs to the
boundary-condition generator `genbcs`, which then performs no
invocation. -/
theorem C3_amended_theorem :
    (∀ (fd : FDState) (noutgs nspoolgs : Int) (subs : Option (List String)),
      ∃ lines rest, fulldomain.genfull fd noutgs nspoolgs subs =
        ([Effect.write (fd.path ++ "/genfull.in") lines,
          Effect.call ("python " ++ rest)], "python " ++ rest) ∧
        "python " ++ rest ≠ sentinel) ∧
    (∀ (s : SubState) (ff : Int) (dt : Option String) (ns : Int)
       (h0 : Option String),
      fulldomain.check_fulldomain s.fdFiles = false →
      subdomain.genbcs s ff dt ns h0 = ([Effect.printMsg sentinel], sentinel)) := by
  constructor
  · intro fd n ns subs
    by_cases h : (subs.getD fd.subdomainPaths).length = 0
    · exact ⟨[toString n, toString ns],
        fd.script_dir ++ (" -a " ++ (fd.path ++ ("/ " ++ " < genfull.in"))),
        by simp [fulldomain.genfull, h], python_ne_sentinel _⟩
    · exact ⟨[toString n, toString ns] ++
          (subs.getD fd.subdomainPaths).map (fun s => s ++ "/"),
        fd.script_dir ++ ("/genfull.py -s " ++ (fd.path ++ ("/ " ++
          (toString (subs.getD fd.subdomainPaths).length ++ " < genfull.in")))),
        by simp [fulldomain.genfull, h], python_ne_sentinel _⟩
  · intro s ff dt ns h0 h
    simp [subdomain.genbcs, h]

/-- Witness for C3 (amended): a subdomain whose fulldomain directory is
empty gets the sentinel from `genbcs`. -/
theorem C3_amended_witness :
    subdomain.genbcs ⟨"/sub", "/scripts", "/fd", [], "0.05", "1.0"⟩ 1 none 1 none =
      ([Effect.printMsg sentinel], sentinel) :=
  C3_amended_theorem.2 ⟨"/sub", "/scripts", "/fd", [], "0.05", "1.0"⟩ 1 none 1 none
    (by decide)

/-- Claim C4: starting from a directory holding neither shape artifact
and an unset flag, the circle setter writes `shape.c14` (and sets the
flag to 1), and re-deriving the flag through `setup`'s
infer-from-existing-artifact path yields flag 1; the analogous ellipse
round trip through `shape.e14` yields flag 0. -/
theorem C4_theorem (files : List String) (hc : "shape.c14" ∉ files)
    (he : "shape.e14" ∉ files) :
    (subdomain.circle ⟨files, none⟩).flag = some 1 ∧
    subdomain.setupFlag none ⟨(subdomain.circle ⟨files, none⟩).files, none⟩ = some 1 ∧
    (subdomain.ellipse ⟨files, none⟩).flag = some 0 ∧
    subdomain.setupFlag none ⟨(subdomain.ellipse ⟨files, none⟩).files, none⟩ = some 0 := by
  refine ⟨rfl, ?_, rfl, ?_⟩
  · have h1 : 0 < ((insertFile "shape.c14" files).filter
        (fun f => f = "shape.c14")).length :=
      (mem_iff_filter_pos _ _).mpr (mem_insertFile _ _)
    have h2 : ¬ 0 < ((insertFile "shape.c14" files).filter
        (fun f => f = "shape.e14")).length := by
      rw [mem_iff_filter_pos, mem_insertFile_ne _ _ _ (by decide)]
      exact he
    simp [subdomain.setupFlag, subdomain.circle, subdomain.inferFlag, h1, h2]
  · have h1 : 0 < ((insertFile "shape.e14" files).filter
        (fun f => f = "shape.e14")).length :=
      (mem_iff_filter_pos _ _).mpr (mem_insertFile _ _)
    simp [subdomain.setupFlag, subdomain.ellipse, subdomain.inferFlag, h1]

/-- Witness for C4: the round trips at the empty directory. -/
theorem C4_witness :
    (subdomain.circle ⟨[], none⟩).flag = some 1 ∧
    subdomain.setupFlag none ⟨(subdomain.circle ⟨[], none⟩).files, none⟩ = some 1 ∧
    (subdomain.ellipse ⟨[], none⟩).flag = some 0 ∧
    subdomain.setupFlag none ⟨(subdomain.ellipse ⟨[], none⟩).files, none⟩ = some 0 :=
  C4_theorem [] (by decide) (by decide)

/-- Claim C5: `update_sub2full_map` (via `read_py_node` and
`read_py_ele`) drops the first line of each mapping file as a header
and stores, for every data line, the first integer as key and the
second as value; and whenever some data line does not consist of
exactly two integers, the tuple unpacking fails and parsing returns no
map at all (an uncaught error). -/
theorem C5_theorem :
    (∀ (nodeLines eleLines : List (List Int)),
      (∀ l ∈ nodeLines.drop 1, l.length = 2) →
      (∀ l ∈ eleLines.drop 1, l.length = 2) →
      subdomain.update_sub2full_map nodeLines eleLines =
        some (mapPairs nodeLines, mapPairs eleLines)) ∧
    (∀ (lines : List (List Int)) (l : List Int), l ∈ lines.drop 1 → l.length ≠ 2 →
      subdomain.read_py_node lines = none ∧ subdomain.read_py_ele lines = none) := by
  constructor
  · intro nl el hn he
    simp only [subdomain.update_sub2full_map, subdomain.read_py_node,
      subdomain.read_py_ele]
    rw [parseMapLines_ok _ hn, parseMapLines_ok _ he]
    rfl
  · intro lines l hl hlen
    exact ⟨parseMapLines_bad _ l hl hlen, parseMapLines_bad _ l hl hlen⟩

/-- Witness for C5: a header plus the data lines `1 3` and `2 7` parse
into the node map `{1:3, 2:7}`, and a three-integer data line aborts
both readers. -/
theorem C5_witness :
    subdomain.update_sub2full_map [[0, 0], [1, 3], [2, 7]] [[0, 0], [1, 2]] =
      some (mapPairs [[0, 0], [1, 3], [2, 7]], mapPairs [[0, 0], [1, 2]]) ∧
    (subdomain.read_py_node [[0, 0], [1, 2, 3]] = none ∧
     subdomain.read_py_ele [[0, 0], [1, 2, 3]] = none) :=
  ⟨C5_theorem.1 _ _ (by decide) (by decide),
   C5_theorem.2 [[0, 0], [1, 2, 3]] [1, 2, 3] (by decide) (by decide)⟩

/-- Claim C6: `check_fulldomain()` is true exactly when each of the two
glob patterns (`fort.06*` directly under the domain path, and
`PE*/fort.065` beneath it) matches at least one file; the function
consumes only the name listing, so it can inspect nothing but
existence. -/
theorem C6_theorem (files : List String) :
    fulldomain.check_fulldomain files = true ↔
      ((∃ f ∈ files, isGlobFort06 f = true) ∧ (∃ f ∈ files, isGlobPE065 f = true)) := by
  simp only [fulldomain.check_fulldomain, Bool.and_eq_true, decide_eq_true_eq]
  rw [filter_pos_iff, filter_pos_iff]

/-- Claim C7, counterexample: two identical arrays `[1, 2]` supplied
for a key, under the legitimate node map `{1:2, 2:1}`, give the
difference `[1, -1]` — not the all-zero array. -/
theorem C7_counterexample :
    compare_runSet id id (fun _ => true) [(1, 2), (2, 1)] [] []
      [("maxele63", NpArr.d1 [1, 2])] [("maxele63", NpArr.d1 [1, 2])]
      (some []) none = some ([], [("maxele63", NpArr.d1 [1, -1])]) ∧
    NpArr.d1 [1, -1] ≠ npZeroLike (NpArr.d1 [1, 2]) := by decide

/-- Claim C7 (amended): `compare_runSet` on two identical arrays for a
key yields the all-zero difference of the same shape provided the node
map is the identity on the array's nodes (so the restriction returns
the array itself) and the result is nonempty (an empty error matrix
aborts the export); for a timeseries key the key must additionally not
be one of the skipped `fort61`/`fort62`, the array rectangular with
dimensionality matching the recording flag, and the dry-node
correction must leave the supplied data unchanged (as when no node is
dry). -/
theorem C7_amended_theorem :
    (∀ (fixN fixD : Dict → Dict) (rec2 : String → Bool) (key : String) (A : NpArr),
      0 < npSize A →
      compare_runSet fixN fixD rec2 (idNodeMap (npOuter A)) [] [] [(key, A)] [(key, A)]
        (some []) none = some ([], [(key, npZeroLike A)])) ∧
    (∀ (fixN fixD : Dict → Dict) (rec2 : String → Bool) (key : String)
       (a : List (List Int)),
      key ≠ "fort61" → key ≠ "fort62" → rec2 key = true → rect2 a = true →
      0 < npSize (NpArr.d2 a) →
      fixN [(key, NpArr.d2 a)] = [(key, NpArr.d2 a)] →
      compare_runSet fixN fixD rec2 (idNodeMap a.length) [(key, NpArr.d2 a)]
        [(key, NpArr.d2 a)] [] [] none (some []) =
        some ([(key, npZeroLike (NpArr.d2 a))], [])) ∧
    (∀ (fixN fixD : Dict → Dict) (rec2 : String → Bool) (key : String)
       (a : List (List (List Int))),
      key ≠ "fort61" → key ≠ "fort62" → rec2 key = false → rect2 a = true →
      0 < npSize (NpArr.d3 a) →
      fixN [(key, NpArr.d3 a)] = [(key, NpArr.d3 a)] →
      compare_runSet fixN fixD rec2 (idNodeMap a.length) [(key, NpArr.d3 a)]
        [(key, NpArr.d3 a)] [] [] none (some []) =
        some ([(key, npZeroLike (NpArr.d3 a))], [])) := by
  refine ⟨?_, ?_, ?_⟩
  · intro fixN fixD rec2 key A hA
    have hstep : ntsStep ((idNodeMap (npOuter A)).map (fun p => p.2 - 1))
        [(key, A)] [(key, A)] key = some (npZeroLike A) := by
      rw [map_idNodeMap]
      simp [ntsStep, dictLookup, npSel_id, npSub_self]
    simp [compare_runSet, keysOf, ntsLoop, tsLoop, hstep, dictInsert,
      npSize_zeroLike, hA]
  · intro fixN fixD rec2 key a h61 h62 hrec hrect hsz hfix
    have hsel : npSelTrunc2 (NpArr.d2 a) (intRange 0 a.length)
        (a.headD []).length = some (NpArr.d2 a) := by
      simp [npSelTrunc2, selRows_self, ← List.headD_eq_head?_getD,
        map_take_rect a hrect]
    have hstep : tsStep rec2 ((idNodeMap a.length).map (fun p => p.2 - 1))
        [(key, NpArr.d2 a)] [(key, NpArr.d2 a)] key =
        some (npZeroLike (NpArr.d2 a)) := by
      rw [map_idNodeMap]
      simp [tsStep, dictLookup, shape1, ← List.headD_eq_head?_getD, hrec, hsel,
        npSub_self]
    by_cases hk : key = "fort63"
    · subst hk
      simp [compare_runSet, keysOf, ntsLoop, tsLoop, hstep, hfix, dictInsert,
        npSize_zeroLike, hsz, h61, h62]
    · simp [compare_runSet, keysOf, ntsLoop, tsLoop, hstep, hfix, dictInsert,
        npSize_zeroLike, hsz, h61, h62, Ne.symm hk, Ne.symm h61]
  · intro fixN fixD rec2 key a h61 h62 hrec hrect hsz hfix
    have hsel : npSelTrunc3 (NpArr.d3 a) (intRange 0 a.length)
        (a.headD []).length = some (NpArr.d3 a) := by
      simp [npSelTrunc3, selRows_self, ← List.headD_eq_head?_getD,
        map_take_rect a hrect]
    have hstep : tsStep rec2 ((idNodeMap a.length).map (fun p => p.2 - 1))
        [(key, NpArr.d3 a)] [(key, NpArr.d3 a)] key =
        some (npZeroLike (NpArr.d3 a)) := by
      rw [map_idNodeMap]
      simp [tsStep, dictLookup, shape1, ← List.headD_eq_head?_getD, hrec, hsel,
        npSub_self]
    by_cases hk : key = "fort63"
    · subst hk
      simp [compare_runSet, keysOf, ntsLoop, tsLoop, hstep, hfix, dictInsert,
        npSize_zeroLike, hsz, h61, h62]
    · simp [compare_runSet, keysOf, ntsLoop, tsLoop, hstep, hfix, dictInsert,
        npSize_zeroLike, hsz, h61, h62, Ne.symm hk, Ne.symm h61]

/-- Witness for C7 (amended): all three parts at concrete identical
inputs under the identity node map — a non-timeseries array, a 2-D
timeseries array with the recording flag set, and a 3-D timeseries
array with the recording flag clear. -/
theorem C7_amended_witness :
    compare_runSet id id (fun _ => true) (idNodeMap (npOuter (NpArr.d1 [1, 2]))) [] []
      [("maxele63", NpArr.d1 [1, 2])] [("maxele63", NpArr.d1 [1, 2])] (some []) none =
      some ([], [("maxele63", npZeroLike (NpArr.d1 [1, 2]))]) ∧
    compare_runSet id id (fun _ => true)
      (idNodeMap ([[1], [2]] : List (List Int)).length)
      [("fort63", NpArr.d2 [[1], [2]])] [("fort63", NpArr.d2 [[1], [2]])] [] []
      none (some []) = some ([("fort63", npZeroLike (NpArr.d2 [[1], [2]]))], []) ∧
    compare_runSet id id (fun _ => false)
      (idNodeMap ([[[1]], [[2]]] : List (List (List Int))).length)
      [("fort64", NpArr.d3 [[[1]], [[2]]])] [("fort64", NpArr.d3 [[[1]], [[2]]])] [] []
      none (some []) = some ([("fort64", npZeroLike (NpArr.d3 [[[1]], [[2]]]))], []) :=
  ⟨C7_amended_theorem.1 id id (fun _ => true) "maxele63" (NpArr.d1 [1, 2]) (by decide),
   C7_amended_theorem.2.1 id id (fun _ => true) "fort63" [[1], [2]] (by decide)
     (by decide) rfl (by decide) (by decide) rfl,
   C7_amended_theorem.2.2 id id (fun _ => false) "fort64" [[[1]], [[2]]] (by decide)
     (by decide) rfl (by decide) (by decide) rfl⟩

/-- Claim C8, counterexample: the Python slice `0:total_obs` clamps,
so a full-domain row shorter than the subdomain's observation count
comes out shorter than it — with `total_obs = 3` the truncated row
`[1, 2]` has trailing length 2, not 3, and the subsequent subtraction
(non-broadcastable shapes 2 versus 3) aborts the whole comparison. -/
theorem C8_counterexample :
    npSelTrunc2 (NpArr.d2 [[1, 2]]) [0] 3 = some (NpArr.d2 [[1, 2]]) ∧
    ¬ (∀ r ∈ ([[1, 2]] : List (List Int)), r.length = 3) ∧
    compare_runSet id id (fun _ => true) [(1, 1)] [("fort63", NpArr.d2 [[5, 6, 7]])]
      [("fort63", NpArr.d2 [[1, 2]])] [] [] none (some []) = none := by decide

/-- Claim C8 (amended): provided every full-domain row carries at least
`total_obs` observations, the truncated selection `A[nodes, 0:total_obs]`
has every row of length exactly `total_obs` — the subdomain's trailing
axis length, so no length mismatch arises. -/
theorem C8_amended_theorem (a out : List (List Int)) (nodes : List Int) (k : Nat)
    (hk : ∀ r ∈ a, k ≤ r.length)
    (h : npSelTrunc2 (NpArr.d2 a) nodes k = some (NpArr.d2 out)) :
    ∀ r ∈ out, r.length = k := by
  simp only [npSelTrunc2] at h
  cases hsel : selRows a nodes with
  | none => rw [hsel] at h; exact Option.noConfusion h
  | some rows =>
    rw [hsel] at h
    simp only [Option.map_some', Option.some.injEq, NpArr.d2.injEq] at h
    intro r hr
    rw [← h] at hr
    obtain ⟨row, hrow, rfl⟩ := List.mem_map.mp hr
    have hmem : row ∈ a := selRows_mem nodes a rows hsel row hrow
    rw [List.length_take]
    exact Nat.min_eq_left (hk row hmem)

/-- Witness for C8 (amended): truncating the single row `[1, 2, 3]` to
2 observations yields a row of length exactly 2. -/
theorem C8_amended_witness :
    (([[1, 2]] : List (List Int)).all (fun r => r.length = 2)) = true :=
  List.all_eq_true.mpr (fun r hr => by
    rw [decide_eq_true_eq]
    exact C8_amended_theorem [[1, 2, 3]] [[1, 2]] [0] 2 (by decide) (by decide) r hr)

/-- Claim C9: `check_subdomains()` examines at most the first
subdomain: on the empty list it falls through to `None`, and on any
non-empty list it returns the first subdomain's `check()` as a
boolean, identically for every tail. -/
theorem C9_theorem :
    fulldomain.check_subdomains [] = none ∧
    ∀ (s : List String) (rest rest2 : List (List String)),
      fulldomain.check_subdomains (s :: rest) = some (subdomain.check s) ∧
      fulldomain.check_subdomains (s :: rest) =
        fulldomain.check_subdomains (s :: rest2) := by
  refine ⟨rfl, fun s rest rest2 => ⟨?_, rfl⟩⟩
  cases h : subdomain.check s <;> simp [fulldomain.check_subdomains, h]

/-- Claim C10: the shape-flag inference of `setup` runs only when both
the `flag` argument and the stored flag are `None` (a non-`None`
argument wins, else a non-`None` stored flag is kept, without touching
the disk); when both artifacts exist the flag infers to 0 because the
ellipse check runs after the circle check; and when neither exists the
flag stays `None` and `gensub` interpolates the literal string `None`
into the generator command line. -/
theorem C10_theorem :
    (∀ (fa : Option Int) (s : ShapeSt), fa ≠ none → subdomain.setupFlag fa s = fa) ∧
    (∀ (s : ShapeSt), s.flag ≠ none → subdomain.setupFlag none s = s.flag) ∧
    (∀ (files : List String), "shape.c14" ∈ files → "shape.e14" ∈ files →
      subdomain.inferFlag files none = some 0) ∧
    (∀ (files : List String) (sd fp : String) (f13 : Bool),
      "shape.c14" ∉ files → "shape.e14" ∉ files →
      subdomain.setup none ⟨files, none⟩ sd fp f13 =
        (none, subdomain.gensubCommand sd fp none f13)) ∧
    (∀ (sd fp : String),
      subdomain.gensubCommand sd fp none false =
        "python " ++ (sd ++ ("/gensub.py " ++ (fp ++ ("/fort.14 " ++
          ("None" ++ (" " ++ "fort.14 ")))))) ++ "< gensub.in") := by
  refine ⟨?_, ?_, ?_, ?_, ?_⟩
  · intro fa s hfa
    simp [subdomain.setupFlag, hfa]
  · intro s hs
    simp [subdomain.setupFlag, hs]
  · intro files hc he
    have h1 : 0 < (files.filter (fun f => f = "shape.e14")).length :=
      (mem_iff_filter_pos _ _).mpr he
    simp [subdomain.inferFlag, h1]
  · intro files sd fp f13 hc he
    have h1 : ¬ 0 < (files.filter (fun f => f = "shape.c14")).length := by
      rw [mem_iff_filter_pos]; exact hc
    have h2 : ¬ 0 < (files.filter (fun f => f = "shape.e14")).length := by
      rw [mem_iff_filter_pos]; exact he
    simp [subdomain.setup, subdomain.setupFlag, subdomain.inferFlag, h1, h2]
  · intro sd fp
    rfl

/-- Witness for C10: each bullet at a concrete state. -/
theorem C10_witness :
    subdomain.setupFlag (some 1) ⟨[], none⟩ = some 1 ∧
    subdomain.setupFlag none ⟨[], some 0⟩ = some 0 ∧
    subdomain.inferFlag ["shape.c14", "shape.e14"] none = some 0 ∧
    subdomain.setup none ⟨[], none⟩ "sd" "fp" false =
      (none, subdomain.gensubCommand "sd" "fp" none false) ∧
    subdomain.gensubCommand "sd" "fp" none false =
      "python " ++ ("sd" ++ ("/gensub.py " ++ ("fp" ++ ("/fort.14 " ++
        ("None" ++ (" " ++ "fort.14 ")))))) ++ "< gensub.in" :=
  ⟨C10_theorem.1 (some 1) ⟨[], none⟩ (by decide),
   C10_theorem.2.1 ⟨[], some 0⟩ (by decide),
   C10_theorem.2.2.1 ["shape.c14", "shape.e14"] (by decide) (by decide),
   C10_theorem.2.2.2.1 [] "sd" "fp" false (by decide) (by decide),
   C10_theorem.2.2.2.2 "sd" "fp"⟩
